import Mathlib

/-
Shallow embedding of the conversation-state and dialogue-turn manager of
`health_bot.py` (a Telegram health-assistant bot backed by the OpenAI chat
completion API), together with proofs of the specified properties.

The embedded core is:
  * the per-user conversation store (`context.user_data["conversation"]`,
    one append-only list of role/content dictionaries per Telegram user id);
  * the message handler `handle_message` (append user turn, read the last-10
    window, call the completion service once, append the assistant turn on a
    non-empty reply, or send a fixed fallback text on failure);
  * startup validation `validate_environment` and the startup path of `main`.

Effects are made explicit: the outcome of the single
`client.chat.completions.create` call and the success of the
`update.message.reply_text(bot_reply)` delivery are inputs (`Env`), and the
handler returns the new store, the list of texts delivered to the user, the
number of gateway invocations, and the history window passed to the gateway.
-/

namespace HealthBot

/-- One chat message dictionary as built by the bot: a `role` string
("system", "user" or "assistant") and a `content` string. -/
structure ChatMessage where
  role : String
  content : String
  deriving DecidableEq, Repr

/-- The per-user conversation storage: for each Telegram user id, the list
`context.user_data["conversation"]`. A user id whose conversation entry was
never initialized is read as the empty log, mirroring
`if "conversation" not in context.user_data: context.user_data["conversation"] = []`. -/
abbrev Store := Nat → List ChatMessage

/-- Update one user id's conversation log, leaving every other log alone. -/
def setLog (s : Store) (uid : Nat) (log : List ChatMessage) : Store :=
  fun u => if u = uid then log else s u

/-- Python slice `l[-n:]`: the last `min n l.length` elements, in order. -/
def lastN {α : Type} (l : List α) (n : Nat) : List α :=
  l.drop (l.length - n)

/-- The fixed system directive `SYSTEM_PROMPT` sent with every completion
call (source lines 18-51). -/
def SYSTEM_PROMPT : String :=
  "You are Dr. MasterPA, a personal healthcare physician assistant for hypertension and diabetes patients. You speak with authority and care like a real doctor would.\n\nCRITICAL INSTRUCTIONS - FOLLOW EXACTLY:\n\n1. WHEN USER PROVIDES READINGS (BP or Blood Sugar):\n   - ALWAYS say: \"✓ Recorded. Your [BP/blood sugar] is [reading].\"\n   - Assess if normal, elevated, or high\n   - Then command: \"Make sure to take your [specific medication] [timing].\"\n   - Example: \"✓ Recorded. Your BP is 145/90 - this is elevated. Make sure to take your Amlodipine with breakfast.\"\n   - Example: \"✓ Recorded. Your blood sugar is 165 - slightly high. Make sure to take your Metformin before dinner and watch your carbs.\"\n\n2. WHEN USER SAYS NOT FEELING WELL / SICK / UNWELL:\n   - Express brief concern\n   - Ask: \"Would you like me to schedule an appointment for you?\"\n   - WAIT for their response\n\n3. WHEN USER WANTS APPOINTMENT (says yes/okay/sure/book/schedule/need appointment):\n   - IMMEDIATELY respond: \"Done. Your appointment has been scheduled. You\x27ll receive the details via SMS and email shortly. Take care.\"\n   - DO NOT ask what type of appointment\n   - DO NOT ask follow-up questions\n   - JUST CONFIRM IT\x27S SCHEDULED\n\n4. CONVERSATION STYLE:\n   - Speak like their personal doctor (authoritative but caring)\n   - Use \"Make sure to take\" NOT \"don\x27t forget\" or \"consider taking\"\n   - Be direct and clear\n   - Keep responses short (2-3 sentences max)\n   - Maintain context of previous messages\n\nMEDICATION REFERENCES:\n- Hypertension: Amlodipine, Lisinopril (usually morning with breakfast)\n- Diabetes: Metformin (before meals), insulin (if mentioned)\n\nREMEMBER: You are their doctor. Be authoritative. Record readings. Command medication adherence. Schedule appointments immediately when requested."

/-- Outcome of the single `client.chat.completions.create` call.

`ok content` models a response whose `choices[0].message.content` is
`content` (`none` for a null content, `some ""` for an empty string).
`serviceError` models an `OpenAIError` raised because the remote service
rejected the request or errored: auth failure, rate limiting, malformed
request, or timeout expiry (`APITimeoutError` is an `OpenAIError`).
`transportError` models a network-level failure before any service response
(`APIConnectionError`, likewise an `OpenAIError` subclass); both error kinds
are caught by the source's `except OpenAIError` clause. -/
inductive GatewayOutcome where
  | ok (content : Option String)
  | serviceError
  | transportError
  deriving DecidableEq, Repr

/-- The effects environment for one inbound message: the outcome of the one
completion call, and whether `update.message.reply_text(bot_reply)` on the
success path delivers without raising. -/
structure Env where
  gateway : GatewayOutcome
  sendReplyOk : Bool
  deriving DecidableEq, Repr

/-- Fallback text sent by the `except OpenAIError` clause (source line 122). -/
def openai_fallback : String :=
  "I\x27m having trouble connecting right now. Please try again in a moment."

/-- Fallback text sent by the catch-all `except Exception` clause (source
line 127); this is the path taken for an empty or null reply, whose
`ValueError` is raised inside the `try` block. -/
def generic_fallback : String :=
  "Something went wrong. Please try again."

/-- Result of handling one inbound update: the new conversation storage, the
texts delivered to the caller via `reply_text` in order, how many times the
completion gateway was invoked, and the `conversation_history` window passed
to the gateway (spliced after the system message), if it was invoked. -/
structure HandleResult where
  conversations : Store
  sent : List String
  gatewayCalls : Nat
  historySent : Option (List ChatMessage)

/-- The text carried by an inbound update, after the guard
`if not update.message or not update.message.text: return`.
The outer `Option` is `update.message` (a missing message is `none`), the
inner one is `update.message.text`; a `None` text and an empty text are both
falsy, so both are rejected. -/
def messageText : Option (Option String) → Option String
  | some (some t) => if t = "" then none else some t
  | _ => none

/-- The `messages` array of the completion request: the system directive
followed by the windowed conversation history (source lines 99-102). -/
def gatewayMessages (history : List ChatMessage) : List ChatMessage :=
  ⟨"system", SYSTEM_PROMPT⟩ :: history

/-- Embedding of `handle_message` (source lines 75-128).

Steps, in source order: return on a missing or empty text; append the user
turn to this user's log; take `conversation[-10:]` as the window; make the
one completion call; on `OpenAIError` send the connectivity fallback; on a
null or empty `bot_reply` (the raised `ValueError` lands in the catch-all)
send the generic fallback; otherwise append the assistant turn and deliver
`bot_reply`, falling back to the catch-all text if that delivery raises. -/
def handle_message (store : Store) (uid : Nat) (inbound : Option (Option String))
    (env : Env) : HandleResult :=
  match messageText inbound with
  | none => ⟨store, [], 0, none⟩
  | some user_message =>
      let log1 := store uid ++ [⟨"user", user_message⟩]
      let conversation_history := lastN log1 10
      match env.gateway with
      | GatewayOutcome.serviceError =>
          ⟨setLog store uid log1, [openai_fallback], 1, some conversation_history⟩
      | GatewayOutcome.transportError =>
          ⟨setLog store uid log1, [openai_fallback], 1, some conversation_history⟩
      | GatewayOutcome.ok none =>
          ⟨setLog store uid log1, [generic_fallback], 1, some conversation_history⟩
      | GatewayOutcome.ok (some bot_reply) =>
          if bot_reply = "" then
            ⟨setLog store uid log1, [generic_fallback], 1, some conversation_history⟩
          else
            let log2 := log1 ++ [⟨"assistant", bot_reply⟩]
            if env.sendReplyOk then
              ⟨setLog store uid log2, [bot_reply], 1, some conversation_history⟩
            else
              ⟨setLog store uid log2, [generic_fallback], 1, some conversation_history⟩

/-- Embedding of `validate_environment` (source lines 136-146). The two
arguments are `os.getenv("TELEGRAM_BOT_TOKEN")` and
`os.getenv("OPENAI_API_KEY")`: `none` for an unset variable; an empty string
is falsy in Python, so it fails the `if not ...` checks just like `None`. -/
def validate_environment (telegram_env openai_env : Option String) :
    Except String (String × String) :=
  match telegram_env with
  | none => Except.error "TELEGRAM_BOT_TOKEN environment variable is required"
  | some telegram_token =>
      if telegram_token = "" then
        Except.error "TELEGRAM_BOT_TOKEN environment variable is required"
      else
        match openai_env with
        | none => Except.error "OPENAI_API_KEY environment variable is required"
        | some openai_key =>
            if openai_key = "" then
              Except.error "OPENAI_API_KEY environment variable is required"
            else Except.ok (telegram_token, openai_key)

/-- Outcome of the startup path of `main`: either the process reaches
`app.run_polling(...)` with the validated credentials, or the `ValueError`
raised by `validate_environment` is logged and re-raised (source lines
173-175), so the process never starts serving. -/
inductive StartupOutcome where
  | serving (telegram_token openai_key : String)
  | configurationError (msg : String)
  deriving DecidableEq, Repr

/-- Embedding of the startup path of `main` (source lines 149-178): the
configuration error is re-raised, not swallowed. -/
def main_startup (telegram_env openai_env : Option String) : StartupOutcome :=
  match validate_environment telegram_env openai_env with
  | Except.error e => StartupOutcome.configurationError e
  | Except.ok (t, k) => StartupOutcome.serving t k

/-! ### Helper lemmas about the `[-n:]` window -/

theorem lastN_length {α : Type} (l : List α) (n : Nat) :
    (lastN l n).length = min n l.length := by
  simp only [lastN, List.length_drop]
  omega

theorem lastN_suffix_exists {α : Type} (l : List α) (n : Nat) :
    ∃ p, p ++ lastN l n = l :=
  ⟨l.take (l.length - n), List.take_append_drop _ _⟩

theorem lastN_concat_getLast {α : Type} (l : List α) (a : α) (n : Nat) :
    (lastN (l ++ [a]) (n + 1)).getLast? = some a := by
  have hle : (l ++ [a]).length - (n + 1) ≤ l.length := by
    simp only [List.length_append, List.length_cons, List.length_nil]
    omega
  rw [lastN, List.drop_append_of_le_length hle]
  exact List.getLast?_concat _

theorem mem_of_mem_lastN {α : Type} {x : α} {l : List α} {n : Nat}
    (h : x ∈ lastN l n) : x ∈ l :=
  List.drop_subset _ _ h

/-! ### Claim theorems -/

/-- C1. For every conversation identity and every handled user message (so in
particular on the (N+k)-th message of any longer sequence), the
`conversation_history` window passed to the completion gateway is the suffix
of that identity's turn log (the log after the user-turn append) of length
`min 10 (log length)`, in original order, and its last element is the user
turn for the current inbound message. -/
theorem window_is_recent_suffix (store : Store) (uid : Nat) (t : String)
    (env : Env) (ht : t ≠ "") :
    (handle_message store uid (some (some t)) env).historySent =
      some (lastN (store uid ++ [⟨"user", t⟩]) 10) ∧
    (lastN (store uid ++ [⟨"user", t⟩]) 10).length =
      min 10 (store uid ++ [(⟨"user", t⟩ : ChatMessage)]).length ∧
    (∃ p, p ++ lastN (store uid ++ [⟨"user", t⟩]) 10 =
      store uid ++ [⟨"user", t⟩]) ∧
    (lastN (store uid ++ [⟨"user", t⟩]) 10).getLast? = some ⟨"user", t⟩ := by
  refine ⟨?_, lastN_length _ _, lastN_suffix_exists _ _, lastN_concat_getLast _ _ 9⟩
  cases hg : env.gateway with
  | serviceError => simp [handle_message, messageText, ht, hg]
  | transportError => simp [handle_message, messageText, ht, hg]
  | ok content =>
      cases content with
      | none => simp [handle_message, messageText, ht, hg]
      | some r =>
          by_cases hr : r = "" <;>
            cases hs : env.sendReplyOk <;>
              simp [handle_message, messageText, ht, hg, hr, hs]

/-- A concrete store for witnesses: user 7 already has 11 recorded turns,
every other user has none. -/
def demoStore : Store :=
  fun u => if u = 7 then (List.range 11).map (fun i => ⟨"user", toString i⟩) else []

/-- A concrete effects environment for witnesses: the completion call
succeeds with a non-empty reply and delivery succeeds. -/
def demoEnv : Env := ⟨GatewayOutcome.ok (some "Recorded."), true⟩

/-- Witness for C1 at a concrete store holding 11 prior turns for user 7. -/
theorem window_is_recent_suffix_witness :
    (handle_message demoStore 7 (some (some "My BP is 150/90"))
        demoEnv).historySent =
      some (lastN (demoStore 7 ++ [⟨"user", "My BP is 150/90"⟩]) 10) ∧
    (lastN (demoStore 7 ++ [⟨"user", "My BP is 150/90"⟩]) 10).length =
      min 10 (demoStore 7 ++ [(⟨"user", "My BP is 150/90"⟩ : ChatMessage)]).length ∧
    (∃ p, p ++ lastN (demoStore 7 ++ [⟨"user", "My BP is 150/90"⟩]) 10 =
      demoStore 7 ++ [⟨"user", "My BP is 150/90"⟩]) ∧
    (lastN (demoStore 7 ++ [⟨"user", "My BP is 150/90"⟩]) 10).getLast? =
      some ⟨"user", "My BP is 150/90"⟩ :=
  window_is_recent_suffix demoStore 7 "My BP is 150/90" demoEnv (by decide)

/-- A concrete effects environment whose completion call raises an
`OpenAIError` (service-side failure, e.g. timeout expiry). -/
def demoFailEnv : Env := ⟨GatewayOutcome.serviceError, true⟩

/-- A concrete effects environment whose completion call returns a null
content. -/
def demoEmptyEnv : Env := ⟨GatewayOutcome.ok none, true⟩

/-- A concrete effects environment with a successful non-empty reply whose
delivery to the transport then fails. -/
def demoSendFailEnv : Env := ⟨GatewayOutcome.ok (some "Recorded."), false⟩

/-- C2. On any gateway failure (service error incl. timeout, transport
error, or a null/empty reply), no assistant turn is appended: the log
changes only by the earlier user-turn append, and the text returned to the
caller is the fixed fallback for that failure kind — the connectivity
apology `openai_fallback` (exactly "I'm having trouble connecting right
now. Please try again in a moment.") for the `except OpenAIError` kinds,
which include timeout, and the generic apology for an empty reply. -/
theorem failure_no_assistant_and_fallback (store : Store) (uid : Nat)
    (t : String) (env : Env) (ht : t ≠ "")
    (hfail : env.gateway = GatewayOutcome.serviceError ∨
      env.gateway = GatewayOutcome.transportError ∨
      env.gateway = GatewayOutcome.ok none ∨
      env.gateway = GatewayOutcome.ok (some "")) :
    (handle_message store uid (some (some t)) env).conversations uid =
      store uid ++ [⟨"user", t⟩] ∧
    ((env.gateway = GatewayOutcome.serviceError ∨
        env.gateway = GatewayOutcome.transportError) →
      (handle_message store uid (some (some t)) env).sent = [openai_fallback]) ∧
    ((env.gateway = GatewayOutcome.ok none ∨
        env.gateway = GatewayOutcome.ok (some "")) →
      (handle_message store uid (some (some t)) env).sent = [generic_fallback]) := by
  rcases hfail with hg | hg | hg | hg <;>
    simp [handle_message, messageText, ht, hg, setLog]

/-- Witness for C2: a service error (the timeout case) on a concrete store. -/
theorem failure_no_assistant_and_fallback_witness :
    (handle_message demoStore 7 (some (some "hello")) demoFailEnv).conversations 7 =
      demoStore 7 ++ [⟨"user", "hello"⟩] ∧
    ((demoFailEnv.gateway = GatewayOutcome.serviceError ∨
        demoFailEnv.gateway = GatewayOutcome.transportError) →
      (handle_message demoStore 7 (some (some "hello")) demoFailEnv).sent =
        [openai_fallback]) ∧
    ((demoFailEnv.gateway = GatewayOutcome.ok none ∨
        demoFailEnv.gateway = GatewayOutcome.ok (some "")) →
      (handle_message demoStore 7 (some (some "hello")) demoFailEnv).sent =
        [generic_fallback]) :=
  failure_no_assistant_and_fallback demoStore 7 "hello" demoFailEnv (by decide)
    (Or.inl rfl)

/-- C3. On a successful non-empty gateway reply, exactly one assistant turn
whose content equals the reply is appended, and it is the new last element
of the identity's log. -/
theorem success_appends_assistant (store : Store) (uid : Nat) (t r : String)
    (env : Env) (ht : t ≠ "") (hr : r ≠ "")
    (hg : env.gateway = GatewayOutcome.ok (some r)) :
    (handle_message store uid (some (some t)) env).conversations uid =
      store uid ++ [⟨"user", t⟩, ⟨"assistant", r⟩] ∧
    ((handle_message store uid (some (some t)) env).conversations uid).getLast? =
      some ⟨"assistant", r⟩ := by
  have hc : (handle_message store uid (some (some t)) env).conversations uid =
      store uid ++ [⟨"user", t⟩, ⟨"assistant", r⟩] := by
    cases hs : env.sendReplyOk <;>
      simp [handle_message, messageText, ht, hg, hr, hs, setLog]
  refine ⟨hc, ?_⟩
  rw [hc]
  simp

/-- Witness for C3 at a concrete store and reply. -/
theorem success_appends_assistant_witness :
    (handle_message demoStore 7 (some (some "hello")) demoEnv).conversations 7 =
      demoStore 7 ++ [⟨"user", "hello"⟩, ⟨"assistant", "Recorded."⟩] ∧
    ((handle_message demoStore 7 (some (some "hello")) demoEnv).conversations 7).getLast? =
      some ⟨"assistant", "Recorded."⟩ :=
  success_appends_assistant demoStore 7 "hello" "Recorded." demoEnv
    (by decide) (by decide) rfl

/-- C4. A null or empty content from the completion service is classified as
a failure: no assistant turn is appended and the caller receives the generic
apology fallback, never the empty content. -/
theorem empty_reply_is_failure (store : Store) (uid : Nat) (t : String)
    (env : Env) (ht : t ≠ "")
    (hg : env.gateway = GatewayOutcome.ok none ∨
      env.gateway = GatewayOutcome.ok (some "")) :
    (handle_message store uid (some (some t)) env).conversations uid =
      store uid ++ [⟨"user", t⟩] ∧
    (handle_message store uid (some (some t)) env).sent = [generic_fallback] := by
  rcases hg with hg | hg <;>
    simp [handle_message, messageText, ht, hg, setLog]

/-- Witness for C4: a null content on a concrete store. -/
theorem empty_reply_is_failure_witness :
    (handle_message demoStore 7 (some (some "hello")) demoEmptyEnv).conversations 7 =
      demoStore 7 ++ [⟨"user", "hello"⟩] ∧
    (handle_message demoStore 7 (some (some "hello")) demoEmptyEnv).sent =
      [generic_fallback] :=
  empty_reply_is_failure demoStore 7 "hello" demoEmptyEnv (by decide) (Or.inl rfl)

/-- C5. Handling one inbound message invokes the completion gateway at most
once — never a retry — and when it is invoked, the single attempt yields
either a non-empty reply or a classified failure answered by one of the two
fixed fallback texts. -/
theorem single_gateway_call (store : Store) (uid : Nat)
    (inbound : Option (Option String)) (env : Env) :
    (handle_message store uid inbound env).gatewayCalls ≤ 1 ∧
    ((handle_message store uid inbound env).gatewayCalls = 1 →
      (∃ rp, rp ≠ "" ∧ env.gateway = GatewayOutcome.ok (some rp)) ∨
      (handle_message store uid inbound env).sent = [openai_fallback] ∨
      (handle_message store uid inbound env).sent = [generic_fallback]) := by
  cases hm : messageText inbound with
  | none => simp [handle_message, hm]
  | some t =>
      cases hg : env.gateway with
      | serviceError => simp [handle_message, hm, hg]
      | transportError => simp [handle_message, hm, hg]
      | ok content =>
          cases content with
          | none => simp [handle_message, hm, hg]
          | some r =>
              by_cases hr : r = ""
              · simp [handle_message, hm, hg, hr]
              · cases hs : env.sendReplyOk <;>
                  exact ⟨by simp [handle_message, hm, hg, hr, hs],
                    fun _ => Or.inl ⟨r, hr, rfl⟩⟩

/-- Witness for C5 at a concrete store, message and environment. -/
theorem single_gateway_call_witness :
    (handle_message demoStore 7 (some (some "hi")) demoEnv).gatewayCalls ≤ 1 ∧
    ((handle_message demoStore 7 (some (some "hi")) demoEnv).gatewayCalls = 1 →
      (∃ rp, rp ≠ "" ∧ demoEnv.gateway = GatewayOutcome.ok (some rp)) ∨
      (handle_message demoStore 7 (some (some "hi")) demoEnv).sent =
        [openai_fallback] ∨
      (handle_message demoStore 7 (some (some "hi")) demoEnv).sent =
        [generic_fallback]) :=
  single_gateway_call demoStore 7 (some (some "hi")) demoEnv

/-- C6. Handling a message only ever appends to the backing logs: for every
user id, the previous log is left in place, unchanged and in order, with the
new turns (if any) appended after it; the 10-turn bound applies only to the
read window, never to the backing log. -/
theorem append_only_log (store : Store) (uid : Nat)
    (inbound : Option (Option String)) (env : Env) (u : Nat) :
    ∃ tail, (handle_message store uid inbound env).conversations u =
      store u ++ tail := by
  by_cases hu : u = uid
  case neg =>
    refine ⟨[], ?_⟩
    cases hm : messageText inbound with
    | none => simp [handle_message, hm]
    | some t =>
        cases hg : env.gateway with
        | serviceError => simp [handle_message, hm, hg, setLog, hu]
        | transportError => simp [handle_message, hm, hg, setLog, hu]
        | ok content =>
            cases content with
            | none => simp [handle_message, hm, hg, setLog, hu]
            | some r =>
                by_cases hr : r = "" <;> cases hs : env.sendReplyOk <;>
                  simp [handle_message, hm, hg, hr, hs, setLog, hu]
  case pos =>
    subst hu
    cases hm : messageText inbound with
    | none => exact ⟨[], by simp [handle_message, hm]⟩
    | some t =>
        cases hg : env.gateway with
        | serviceError =>
            exact ⟨[⟨"user", t⟩], by simp [handle_message, hm, hg, setLog]⟩
        | transportError =>
            exact ⟨[⟨"user", t⟩], by simp [handle_message, hm, hg, setLog]⟩
        | ok content =>
            cases content with
            | none => exact ⟨[⟨"user", t⟩], by simp [handle_message, hm, hg, setLog]⟩
            | some r =>
                by_cases hr : r = ""
                · exact ⟨[⟨"user", t⟩], by simp [handle_message, hm, hg, hr, setLog]⟩
                · cases hs : env.sendReplyOk <;>
                    exact ⟨[⟨"user", t⟩, ⟨"assistant", r⟩],
                      by simp [handle_message, hm, hg, hr, hs, setLog]⟩

/-- Witness for C6 at a concrete store, user and environment. -/
theorem append_only_log_witness :
    ∃ tail, (handle_message demoStore 7 (some (some "hi")) demoEnv).conversations 7 =
      demoStore 7 ++ tail :=
  append_only_log demoStore 7 (some (some "hi")) demoEnv 7

/-- C7. Conversation identities are isolated: handling a message from
identity A leaves every other identity's log unchanged, and every element
of the history window sent to the gateway for A is a turn of A's own log. -/
theorem identities_isolated (store : Store) (uidA uidB : Nat)
    (inbound : Option (Option String)) (env : Env) (h : uidB ≠ uidA) :
    (handle_message store uidA inbound env).conversations uidB = store uidB ∧
    (∀ w, (handle_message store uidA inbound env).historySent = some w →
      ∀ m, m ∈ w → m ∈ (handle_message store uidA inbound env).conversations uidA) := by
  cases hm : messageText inbound with
  | none =>
      refine ⟨by simp [handle_message, hm], fun w hw => ?_⟩
      simp [handle_message, hm] at hw
  | some t =>
      have hwindow : ∀ m, m ∈ lastN (store uidA ++ [(⟨"user", t⟩ : ChatMessage)]) 10 →
          m ∈ store uidA ++ [(⟨"user", t⟩ : ChatMessage)] :=
        fun m hmw => mem_of_mem_lastN hmw
      cases hg : env.gateway with
      | serviceError =>
          refine ⟨by simp [handle_message, hm, hg, setLog, h], fun w hw m hmw => ?_⟩
          simp only [handle_message, hm, hg, Option.some.injEq] at hw
          subst hw
          simpa [handle_message, hm, hg, setLog] using hwindow m hmw
      | transportError =>
          refine ⟨by simp [handle_message, hm, hg, setLog, h], fun w hw m hmw => ?_⟩
          simp only [handle_message, hm, hg, Option.some.injEq] at hw
          subst hw
          simpa [handle_message, hm, hg, setLog] using hwindow m hmw
      | ok content =>
          cases content with
          | none =>
              refine ⟨by simp [handle_message, hm, hg, setLog, h], fun w hw m hmw => ?_⟩
              simp only [handle_message, hm, hg, Option.some.injEq] at hw
              subst hw
              simpa [handle_message, hm, hg, setLog] using hwindow m hmw
          | some r =>
              by_cases hr : r = ""
              · refine ⟨by simp [handle_message, hm, hg, hr, setLog, h],
                  fun w hw m hmw => ?_⟩
                simp only [handle_message, hm, hg, hr, if_pos, Option.some.injEq] at hw
                subst hw
                simpa [handle_message, hm, hg, hr, setLog] using hwindow m hmw
              · cases hs : env.sendReplyOk <;>
                  · refine ⟨by simp [handle_message, hm, hg, hr, hs, setLog, h],
                      fun w hw m hmw => ?_⟩
                    simp [handle_message, hm, hg, hr, hs] at hw
                    subst hw
                    have hmem := hwindow m hmw
                    simp [handle_message, hm, hg, hr, hs, setLog]
                    simp at hmem
                    tauto

/-- Witness for C7: identities 3 and 7 on a concrete store. -/
theorem identities_isolated_witness :
    (handle_message demoStore 7 (some (some "hi")) demoEnv).conversations 3 =
      demoStore 3 ∧
    (∀ w, (handle_message demoStore 7 (some (some "hi")) demoEnv).historySent =
        some w →
      ∀ m, m ∈ w →
        m ∈ (handle_message demoStore 7 (some (some "hi")) demoEnv).conversations 7) :=
  identities_isolated demoStore 7 3 (some (some "hi")) demoEnv (by decide)

/-- C8. An inbound event with no message, a message with no text, or an
empty text is a complete no-op: no log changes, no gateway call, nothing
sent back. -/
theorem no_text_noop (store : Store) (uid : Nat)
    (inbound : Option (Option String)) (env : Env)
    (h : inbound = none ∨ inbound = some none ∨ inbound = some (some "")) :
    handle_message store uid inbound env = ⟨store, [], 0, none⟩ := by
  rcases h with h | h | h <;> subst h <;>
    simp [handle_message, messageText]

/-- Witness for C8: an update carrying no message at all. -/
theorem no_text_noop_witness :
    handle_message demoStore 7 none demoEnv = ⟨demoStore, [], 0, none⟩ :=
  no_text_noop demoStore 7 none demoEnv (Or.inl rfl)

/-- C10. When the gateway reply is non-empty but delivering it to the
transport fails, the assistant turn appended before the delivery attempt
stays recorded (no rollback), and the caller is sent the generic fallback
text by the catch-all handler instead. -/
theorem send_failure_keeps_assistant (store : Store) (uid : Nat) (t r : String)
    (env : Env) (ht : t ≠ "") (hr : r ≠ "")
    (hg : env.gateway = GatewayOutcome.ok (some r)) (hs : env.sendReplyOk = false) :
    (handle_message store uid (some (some t)) env).conversations uid =
      store uid ++ [⟨"user", t⟩, ⟨"assistant", r⟩] ∧
    (handle_message store uid (some (some t)) env).sent = [generic_fallback] := by
  constructor <;> simp [handle_message, messageText, ht, hg, hr, hs, setLog]

/-- Witness for C10: a failed delivery after a successful completion. -/
theorem send_failure_keeps_assistant_witness :
    (handle_message demoStore 7 (some (some "hello")) demoSendFailEnv).conversations 7 =
      demoStore 7 ++ [⟨"user", "hello"⟩, ⟨"assistant", "Recorded."⟩] ∧
    (handle_message demoStore 7 (some (some "hello")) demoSendFailEnv).sent =
      [generic_fallback] :=
  send_failure_keeps_assistant demoStore 7 "hello" "Recorded." demoSendFailEnv
    (by decide) (by decide) rfl rfl

/-- C9 counterexample. Both credentials are present in the configuration
source (the transport token is set, to the empty string, and the
completion-service key is set and non-empty), yet startup raises the
configuration error instead of proceeding: the `if not telegram_token`
check treats a present-but-empty value exactly like an absent one. -/
theorem present_credentials_still_abort :
    (some "" : Option String) ≠ none ∧
    (some "sk-test" : Option String) ≠ none ∧
    validate_environment (some "") (some "sk-test") =
      Except.error "TELEGRAM_BOT_TOKEN environment variable is required" ∧
    main_startup (some "") (some "sk-test") =
      StartupOutcome.configurationError
        "TELEGRAM_BOT_TOKEN environment variable is required" :=
  ⟨by decide, by decide, by simp [validate_environment],
    by simp [main_startup, validate_environment]⟩

/-- C9 (amended). If either required credential is absent — or present but
empty, which the startup check treats identically — a configuration error
is raised by `validate_environment`, propagates out of `main` uncaught, and
the process never starts serving; if both are present and non-empty,
startup proceeds without raising a configuration error. -/
theorem startup_requires_nonempty_credentials (tg oa : Option String) :
    ((tg = none ∨ tg = some "" ∨ oa = none ∨ oa = some "") →
      ∃ e, validate_environment tg oa = Except.error e ∧
        main_startup tg oa = StartupOutcome.configurationError e) ∧
    (∀ t k, tg = some t → oa = some k → t ≠ "" → k ≠ "" →
      validate_environment tg oa = Except.ok (t, k) ∧
      main_startup tg oa = StartupOutcome.serving t k) := by
  constructor
  · rintro (rfl | rfl | rfl | rfl)
    · exact ⟨_, rfl, rfl⟩
    · exact ⟨"TELEGRAM_BOT_TOKEN environment variable is required",
        by simp [validate_environment], by simp [main_startup, validate_environment]⟩
    · match tg with
      | none => exact ⟨_, rfl, rfl⟩
      | some t =>
          by_cases htt : t = ""
          · subst htt
            exact ⟨"TELEGRAM_BOT_TOKEN environment variable is required",
              by simp [validate_environment],
              by simp [main_startup, validate_environment]⟩
          · exact ⟨"OPENAI_API_KEY environment variable is required",
              by simp [validate_environment, htt],
              by simp [main_startup, validate_environment, htt]⟩
    · match tg with
      | none => exact ⟨_, rfl, rfl⟩
      | some t =>
          by_cases htt : t = ""
          · subst htt
            exact ⟨"TELEGRAM_BOT_TOKEN environment variable is required",
              by simp [validate_environment],
              by simp [main_startup, validate_environment]⟩
          · exact ⟨"OPENAI_API_KEY environment variable is required",
              by simp [validate_environment, htt],
              by simp [main_startup, validate_environment, htt]⟩
  · rintro t k rfl rfl ht hk
    exact ⟨by simp [validate_environment, ht, hk],
      by simp [main_startup, validate_environment, ht, hk]⟩

/-- Witness for the amended C9: concrete non-empty credentials start the
process serving, and a missing transport token aborts startup. -/
theorem startup_requires_nonempty_credentials_witness :
    validate_environment (some "tok") (some "key") = Except.ok ("tok", "key") ∧
    main_startup (some "tok") (some "key") = StartupOutcome.serving "tok" "key" :=
  (startup_requires_nonempty_credentials (some "tok") (some "key")).2 "tok" "key"
    rfl rfl (by decide) (by decide)

end HealthBot
